import Mathlib

/-!
A shallow embedding of the `passkeep` password generator library
(`src/passkeep/src/lib.rs`) and proofs about its behaviour.

Modelling conventions:
* `usize` values are `Nat`; `NonZeroUsize` is `Option Nat` together with the
  smart constructor used by the code (`NonZeroUsize::try_from(n).ok()`,
  which is `none` exactly when `n = 0`).
* The `bitflags` set `PasswordContents` is a structure of four `Bool`
  fields, one per defined flag; `set(F, true)` sets the field, `is_empty`
  tests all fields, matching bitflag set semantics.
* Randomness: `Iterator::choose(&mut rng)` picks an arbitrary element of
  the iterated sequence (uniformly at random in the implementation).  The
  random source is modelled as a function `pick : Nat → Nat` giving, for
  each loop iteration, an arbitrary natural number; the chosen element is
  the one at index `pick i % length`, so every element is reachable and
  the proofs quantify over all random sources.
* Panics (`Option::unwrap` on `None`) are modelled as `none` in an outer
  `Option` layer: `generate` returns `Option (Except e String)`, where the
  outer `none` means a panic, `some (.error e)` a returned error and
  `some (.ok s)` a returned password.
-/

namespace Passkeep

/-- `const LOWERCASE_DATA: &str` from the source. -/
def LOWERCASE_DATA : List Char := "abcdefghijklmnopqrstuvwxyz".toList

/-- `const UPPERCASE_DATA: &str` from the source. -/
def UPPERCASE_DATA : List Char := "ABCDEFGHIJKLMNOPQRSTUVWXYZ".toList

/-- `const SYMBOLS: &str` from the source; the Rust literal is
the 32 characters given here in order (escaped characters written with
`Char.ofNat`: 123 is the opening curly brace, 125 the closing one, 34 the
double quote, 39 the apostrophe, 96 the backtick, 92 the backslash). -/
def SYMBOLS : List Char :=
  ['!', '@', '#', '$', '%', '^', '&', '*', '(', ')', '_', '+', '-', '=',
   Char.ofNat 123, Char.ofNat 125, '[', ']', Char.ofNat 34, ':', ';',
   Char.ofNat 39, '?', '>', '<', ',', '.', '/', '~', Char.ofNat 96, '|',
   Char.ofNat 92]

/-- `const NUMBERS: &str` from the source: the digits in the order
`1234567890`. -/
def NUMBERS : List Char := "1234567890".toList

/-- The `bitflags` struct `PasswordContents`: a set over the four defined
flags, one Boolean per flag. -/
structure PasswordContents where
  lowercase : Bool
  uppercase : Bool
  symbols : Bool
  numbers : Bool
  deriving DecidableEq

/-- `PasswordContents::empty()`: no flag set. -/
def PasswordContents.empty : PasswordContents :=
  ⟨false, false, false, false⟩

/-- `PasswordContents::is_empty()`: true iff no flag is set. -/
def PasswordContents.isEmpty (c : PasswordContents) : Bool :=
  !c.lowercase && !c.uppercase && !c.symbols && !c.numbers

/-- The error enum `PasswordGenerationError` from the source. -/
inductive PasswordGenerationError where
  | MissingContent
  | ZeroLengthPassword
  deriving DecidableEq

/-- The struct `PasswordGenerator`: enabled contents and an optional
nonzero length (`Option<NonZeroUsize>`); the `with_length` constructor
below only ever stores `some` of a positive number, as `NonZeroUsize`
guarantees in the source. -/
structure PasswordGenerator where
  contents : PasswordContents
  length : Option Nat
  deriving DecidableEq

/-- `PasswordGenerator::new()`: empty contents,
`length = NonZeroUsize::new(8)`, i.e. `some 8`. -/
def PasswordGenerator.new : PasswordGenerator :=
  ⟨PasswordContents.empty, some 8⟩

/-- `with_lowercase_chars`: `self.contents.set(LOWERCASE, true)`. -/
def PasswordGenerator.with_lowercase_chars (g : PasswordGenerator) : PasswordGenerator :=
  ⟨⟨true, g.contents.uppercase, g.contents.symbols, g.contents.numbers⟩, g.length⟩

/-- `with_uppercase_chars`: `self.contents.set(UPPERCASE, true)`. -/
def PasswordGenerator.with_uppercase_chars (g : PasswordGenerator) : PasswordGenerator :=
  ⟨⟨g.contents.lowercase, true, g.contents.symbols, g.contents.numbers⟩, g.length⟩

/-- `with_symbols`: `self.contents.set(SYMBOLS, true)`. -/
def PasswordGenerator.with_symbols (g : PasswordGenerator) : PasswordGenerator :=
  ⟨⟨g.contents.lowercase, g.contents.uppercase, true, g.contents.numbers⟩, g.length⟩

/-- `with_numbers`: `self.contents.set(NUMBERS, true)`. -/
def PasswordGenerator.with_numbers (g : PasswordGenerator) : PasswordGenerator :=
  ⟨⟨g.contents.lowercase, g.contents.uppercase, g.contents.symbols, true⟩, g.length⟩

/-- `with_length`: `self.length = NonZeroUsize::try_from(length).ok()`,
which is `none` exactly when the argument is zero. -/
def PasswordGenerator.with_length (g : PasswordGenerator) (length : Nat) : PasswordGenerator :=
  ⟨g.contents, if length = 0 then none else some length⟩

/-- The dictionary built inside `generate`: the concatenation, in source
order (lowercase, uppercase, symbols, numbers), of the constant data of
every enabled class. -/
def buildDictionary (c : PasswordContents) : List Char :=
  (if c.lowercase then LOWERCASE_DATA else []) ++
  (if c.uppercase then UPPERCASE_DATA else []) ++
  (if c.symbols then SYMBOLS else []) ++
  (if c.numbers then NUMBERS else [])

/-- `dictionary.chars().choose(&mut rng)`: `none` on an empty sequence,
otherwise the element at the (arbitrary, random-source-supplied) index
`r % length`. -/
def choose (l : List Char) (r : Nat) : Option Char :=
  if l.isEmpty then none else l.get? (r % l.length)

/-- The sampling loop of `generate`: `n` iterations, iteration `i` pushing
`dictionary.chars().choose(&mut rng).unwrap()`; `none` models the panic of
that `unwrap` when `choose` yields nothing. -/
def generatePassword (d : List Char) (pick : Nat → Nat) : Nat → Option (List Char)
  | 0 => some []
  | n + 1 =>
    match generatePassword d pick n, choose d (pick n) with
    | some pw, some ch => some (pw ++ [ch])
    | _, _ => none

/-- `PasswordGenerator::generate`, following the source line by line:
length check first (`ZeroLengthPassword`), then contents check
(`MissingContent`), then dictionary construction and the sampling loop.
The outer `Option` models panics: `none` would mean an `unwrap` panicked. -/
def PasswordGenerator.generate (g : PasswordGenerator) (pick : Nat → Nat) :
    Option (Except PasswordGenerationError (List Char)) :=
  match g.length with
  | none => some (Except.error PasswordGenerationError.ZeroLengthPassword)
  | some len =>
    if g.contents.isEmpty then
      some (Except.error PasswordGenerationError.MissingContent)
    else
      match generatePassword (buildDictionary g.contents) pick len with
      | none => none
      | some pw => some (Except.ok pw)

/-! ### Spec-side definitions, used only to compare the code against the
spec's words for the refinement-style claims. -/

/-- The symbol set as LISTED in the spec ("a fixed 32-character punctuation
set"): the characters written there in order, which are 31 characters and
do not include the vertical bar. -/
def specSymbolsListed : List Char :=
  ['!', '@', '#', '$', '%', '^', '&', '*', '(', ')', '_', '+', '-', '=',
   Char.ofNat 123, Char.ofNat 125, '[', ']', Char.ofNat 34, ':', ';',
   Char.ofNat 39, '?', '>', '<', ',', '.', '/', '~', Char.ofNat 96,
   Char.ofNat 92]

/-- The Numbers alphabet as the spec words it: the digits 0 through 9 in
that order. -/
def specNumbersListed : List Char := "0123456789".toList

/-- The character pool exactly as the spec words it: concatenation in the
fixed order Lowercase, Uppercase, Symbols, Numbers of the enabled classes'
alphabets, with the Numbers alphabet being 0 through 9 in that order. -/
def specPool (c : PasswordContents) : List Char :=
  (if c.lowercase then LOWERCASE_DATA else []) ++
  (if c.uppercase then UPPERCASE_DATA else []) ++
  (if c.symbols then SYMBOLS else []) ++
  (if c.numbers then specNumbersListed else [])

/-- The ten digits in the order the code uses: 1 through 9 followed by 0,
rendered independently from character codes (49 is the digit one, 48 the
digit zero). -/
def digitsOneToNineThenZero : List Char :=
  (List.range 9).map (fun i => Char.ofNat (49 + i)) ++ [Char.ofNat 48]

/-- The character pool as the amended claim words it: the same fixed
concatenation order, with the letter alphabets rendered independently from
character ranges (97 is lowercase a, 65 is uppercase A) and the Numbers
alphabet being the digits 1 through 9 followed by 0. -/
def amendedPool (c : PasswordContents) : List Char :=
  (if c.lowercase then (List.range 26).map (fun i => Char.ofNat (97 + i)) else []) ++
  (if c.uppercase then (List.range 26).map (fun i => Char.ofNat (65 + i)) else []) ++
  (if c.symbols then SYMBOLS else []) ++
  (if c.numbers then digitsOneToNineThenZero else [])

/-! ### Helper lemmas -/

/-- Anything `choose` returns is an element of the list it chose from. -/
lemma choose_mem (d : List Char) (r : Nat) (ch : Char)
    (h : choose d r = some ch) : ch ∈ d := by
  unfold choose at h
  split at h
  · exact absurd h (by simp)
  · exact List.get?_mem h

/-- On a nonempty list, `choose` always returns a value: the element at
the reduced index. -/
lemma choose_isSome (d : List Char) (hd : d ≠ []) (r : Nat) :
    ∃ ch, choose d r = some ch := by
  have h0 : 0 < d.length := List.length_pos.mpr hd
  have hm : r % d.length < d.length := Nat.mod_lt _ h0
  have he : d.isEmpty = false := by
    cases d with
    | nil => exact absurd rfl hd
    | cons a t => rfl
  exact ⟨d.get ⟨r % d.length, hm⟩, by simp [choose, he, List.get?_eq_get hm]⟩

/-- A successful run of the sampling loop produces exactly `n` characters,
all drawn from the dictionary. -/
lemma generatePassword_sound (d : List Char) (pick : Nat → Nat) :
    ∀ n pw, generatePassword d pick n = some pw →
      pw.length = n ∧ ∀ ch ∈ pw, ch ∈ d := by
  intro n
  induction n with
  | zero =>
    intro pw h
    simp only [generatePassword, Option.some.injEq] at h
    subst h
    simp
  | succ n ih =>
    intro pw h
    simp only [generatePassword] at h
    cases hgp : generatePassword d pick n with
    | none => rw [hgp] at h; simp at h
    | some pw0 =>
      cases hch : choose d (pick n) with
      | none => rw [hgp, hch] at h; simp at h
      | some ch =>
        rw [hgp, hch] at h
        simp only [Option.some.injEq] at h
        subst h
        obtain ⟨hlen, hmem⟩ := ih pw0 hgp
        refine ⟨by simp [hlen], ?_⟩
        intro x hx
        rcases List.mem_append.mp hx with hx | hx
        · exact hmem x hx
        · rcases List.mem_singleton.mp hx with rfl
          exact choose_mem d (pick n) x hch

/-- On a nonempty dictionary the sampling loop never panics. -/
lemma generatePassword_total (d : List Char) (pick : Nat → Nat) (hd : d ≠ []) :
    ∀ n, ∃ pw, generatePassword d pick n = some pw := by
  intro n
  induction n with
  | zero => exact ⟨[], rfl⟩
  | succ n ih =>
    obtain ⟨pw, hpw⟩ := ih
    obtain ⟨ch, hch⟩ := choose_isSome d hd (pick n)
    exact ⟨pw ++ [ch], by simp [generatePassword, hpw, hch]⟩

/-- If at least one flag is set, the dictionary is nonempty. -/
lemma buildDictionary_ne_nil (c : PasswordContents)
    (hc : c.isEmpty = false) : buildDictionary c ≠ [] := by
  obtain ⟨a, b, s, n⟩ := c
  revert hc
  cases a <;> cases b <;> cases s <;> cases n <;> decide

/-- On a valid configuration (length present, some flag set), `generate`
returns a password of exactly the configured length. -/
lemma generate_ok (c : PasswordContents) (L : Nat) (pick : Nat → Nat)
    (hc : c.isEmpty = false) :
    ∃ s, PasswordGenerator.generate ⟨c, some L⟩ pick = some (Except.ok s) ∧
      s.length = L := by
  obtain ⟨pw, hpw⟩ :=
    generatePassword_total (buildDictionary c) pick (buildDictionary_ne_nil c hc) L
  refine ⟨pw, ?_, (generatePassword_sound (buildDictionary c) pick L pw hpw).1⟩
  simp [PasswordGenerator.generate, hc, hpw]

/-- Every character of a successfully generated password is in the
dictionary of the generator's contents. -/
lemma generate_ok_chars (g : PasswordGenerator) (pick : Nat → Nat)
    (s : List Char) (h : g.generate pick = some (Except.ok s)) :
    ∀ ch ∈ s, ch ∈ buildDictionary g.contents := by
  obtain ⟨c, l⟩ := g
  cases l with
  | none => simp [PasswordGenerator.generate] at h
  | some len =>
    simp only [PasswordGenerator.generate] at h
    by_cases hc : c.isEmpty
    · simp [hc] at h
    · rw [if_neg (by simpa using hc)] at h
      cases hgp : generatePassword (buildDictionary c) pick len with
      | none => rw [hgp] at h; simp at h
      | some pw =>
        rw [hgp] at h
        simp only [Option.some.injEq, Except.ok.injEq] at h
        subst h
        exact (generatePassword_sound (buildDictionary c) pick len pw hgp).2

/-! ### Claim theorems -/

/-- Claim C1: for every configuration with at least one character class
enabled and the length last set to a positive integer L (the default 8 is
the case L = 8), `generate` succeeds, for every random source, and
returns a string of exactly L characters. -/
theorem generate_valid_length_ok (c : PasswordContents) (L : Nat)
    (pick : Nat → Nat) (hc : c.isEmpty = false) (_hL : 0 < L) :
    ∃ s, PasswordGenerator.generate ⟨c, some L⟩ pick = some (Except.ok s) ∧
      s.length = L :=
  generate_ok c L pick hc

/-- Witness for C1 at the spec's concrete scenario: lowercase enabled,
length 43594. -/
theorem generate_valid_length_ok_check :
    PasswordContents.isEmpty ⟨true, false, false, false⟩ = false ∧
    0 < 43594 ∧
    ∃ s, PasswordGenerator.generate ⟨⟨true, false, false, false⟩, some 43594⟩
        (fun i => i) = some (Except.ok s) ∧ s.length = 43594 :=
  ⟨rfl, by decide,
    generate_valid_length_ok ⟨true, false, false, false⟩ 43594 (fun i => i)
      rfl (by decide)⟩

/-- Claim C2: for every configuration whose length is unset (equivalently,
last set to zero), `generate` fails with `ZeroLengthPassword`, including
when no class is enabled — the length check runs before the class check. -/
theorem generate_zero_length_precedence (c : PasswordContents)
    (g : PasswordGenerator) (pick : Nat → Nat) :
    PasswordGenerator.generate ⟨c, none⟩ pick =
      some (Except.error PasswordGenerationError.ZeroLengthPassword) ∧
    PasswordGenerator.generate ⟨PasswordContents.empty, none⟩ pick =
      some (Except.error PasswordGenerationError.ZeroLengthPassword) ∧
    PasswordGenerator.generate (g.with_length 0) pick =
      some (Except.error PasswordGenerationError.ZeroLengthPassword) :=
  ⟨rfl, rfl, rfl⟩

/-- Claim C3: with no class enabled and any positive length, `generate`
fails with `MissingContent`; in particular the default generator does. -/
theorem generate_missing_content (c : PasswordContents) (L : Nat)
    (pick : Nat → Nat) (hc : c.isEmpty = true) (_hL : 0 < L) :
    PasswordGenerator.generate ⟨c, some L⟩ pick =
      some (Except.error PasswordGenerationError.MissingContent) ∧
    PasswordGenerator.generate PasswordGenerator.new pick =
      some (Except.error PasswordGenerationError.MissingContent) :=
  ⟨by simp [PasswordGenerator.generate, hc], rfl⟩

/-- Witness for C3: the empty class selection with the default length 8. -/
theorem generate_missing_content_check :
    PasswordContents.isEmpty PasswordContents.empty = true ∧ 0 < 8 ∧
    (PasswordGenerator.generate ⟨PasswordContents.empty, some 8⟩ (fun i => i) =
      some (Except.error PasswordGenerationError.MissingContent) ∧
    PasswordGenerator.generate PasswordGenerator.new (fun i => i) =
      some (Except.error PasswordGenerationError.MissingContent)) :=
  ⟨rfl, by decide,
    generate_missing_content PasswordContents.empty 8 (fun i => i) rfl (by decide)⟩

/-- Claim C4: setting the length to 0 stores the unset/invalid length
(`none`, not a clamped positive value), such a configuration fails with
`ZeroLengthPassword`, and every configuration with an unset length fails
with the same error — explicit zero and never-set are indistinguishable. -/
theorem with_length_zero_invalid (g g' : PasswordGenerator)
    (pick : Nat → Nat) (h' : g'.length = none) :
    (g.with_length 0).length = none ∧
    PasswordGenerator.generate (g.with_length 0) pick =
      some (Except.error PasswordGenerationError.ZeroLengthPassword) ∧
    PasswordGenerator.generate g' pick =
      some (Except.error PasswordGenerationError.ZeroLengthPassword) := by
  refine ⟨rfl, rfl, ?_⟩
  obtain ⟨c, l⟩ := g'
  cases l with
  | none => rfl
  | some len => simp at h'

/-- Witness for C4: zeroing the default generator's length, and a
generator whose length is unset. -/
theorem with_length_zero_invalid_check :
    (PasswordGenerator.length ⟨PasswordContents.empty, none⟩ = none) ∧
    ((PasswordGenerator.new.with_length 0).length = none ∧
    PasswordGenerator.generate (PasswordGenerator.new.with_length 0) (fun i => i) =
      some (Except.error PasswordGenerationError.ZeroLengthPassword) ∧
    PasswordGenerator.generate ⟨PasswordContents.empty, none⟩ (fun i => i) =
      some (Except.error PasswordGenerationError.ZeroLengthPassword)) :=
  ⟨rfl,
    with_length_zero_invalid PasswordGenerator.new ⟨PasswordContents.empty, none⟩
      (fun i => i) rfl⟩

/-- Counterexample to C5 as stated: with only symbols enabled, the output
can contain the vertical bar, which is not among the 31 characters the
spec actually lists for the Symbols class. -/
theorem single_class_spec_symbols_cex :
    PasswordGenerator.generate (PasswordGenerator.new.with_symbols.with_length 1)
      (fun _ => 30) = some (Except.ok ['|']) ∧
    '|' ∉ specSymbolsListed :=
  ⟨rfl, by decide⟩

/-- Claim C5 (amended): in a single-class configuration every output
character lies in that class's alphabet — a to z for lowercase, A to Z for
uppercase, the digits 0 to 9 for numbers, and for symbols the code's full
32-character set `SYMBOLS`, which includes the vertical bar the spec's
listing omits. -/
theorem generate_single_class_alphabet (L : Nat) (pick : Nat → Nat)
    (s : List Char) :
    (PasswordGenerator.generate (PasswordGenerator.new.with_lowercase_chars.with_length L)
        pick = some (Except.ok s) → ∀ ch ∈ s, ch ∈ LOWERCASE_DATA) ∧
    (PasswordGenerator.generate (PasswordGenerator.new.with_uppercase_chars.with_length L)
        pick = some (Except.ok s) → ∀ ch ∈ s, ch ∈ UPPERCASE_DATA) ∧
    (PasswordGenerator.generate (PasswordGenerator.new.with_symbols.with_length L)
        pick = some (Except.ok s) → ∀ ch ∈ s, ch ∈ SYMBOLS) ∧
    (PasswordGenerator.generate (PasswordGenerator.new.with_numbers.with_length L)
        pick = some (Except.ok s) → ∀ ch ∈ s, ch ∈ specNumbersListed) := by
  refine ⟨fun h ch hch => ?_, fun h ch hch => ?_, fun h ch hch => ?_,
    fun h ch hch => ?_⟩ <;>
    have hm := generate_ok_chars _ pick s h ch hch <;>
    simp only [PasswordGenerator.new, PasswordGenerator.with_lowercase_chars,
      PasswordGenerator.with_uppercase_chars, PasswordGenerator.with_symbols,
      PasswordGenerator.with_numbers, PasswordGenerator.with_length,
      PasswordContents.empty, buildDictionary] at hm
  · simpa using hm
  · simpa using hm
  · simpa using hm
  · have sub : NUMBERS ⊆ specNumbersListed := by decide
    exact sub (by simpa using hm)

/-- Witness for C5: lowercase only, length 2, the random source that picks
the iteration index. -/
theorem generate_single_class_alphabet_check :
    PasswordGenerator.generate (PasswordGenerator.new.with_lowercase_chars.with_length 2)
      (fun i => i) = some (Except.ok ['a', 'b']) ∧
    ∀ ch ∈ ['a', 'b'], ch ∈ LOWERCASE_DATA :=
  ⟨rfl, fun ch hch =>
    (generate_single_class_alphabet 2 (fun i => i) ['a', 'b']).1 rfl ch hch⟩

set_option maxRecDepth 4000 in
/-- Claim C6: with all four classes enabled, every output character lies
in the union of the four alphabets, and that union has exactly 94 distinct
characters. -/
theorem generate_all_classes_union (L : Nat) (pick : Nat → Nat)
    (s : List Char)
    (h : PasswordGenerator.generate
      (PasswordGenerator.new.with_lowercase_chars.with_uppercase_chars.with_symbols.with_numbers.with_length
        L) pick = some (Except.ok s)) :
    (∀ ch ∈ s, ch ∈ LOWERCASE_DATA ++ UPPERCASE_DATA ++ SYMBOLS ++ NUMBERS) ∧
    (LOWERCASE_DATA ++ UPPERCASE_DATA ++ SYMBOLS ++ NUMBERS).dedup.length = 94 := by
  refine ⟨fun ch hch => ?_, by decide⟩
  have hm := generate_ok_chars _ pick s h ch hch
  simpa [PasswordGenerator.new, PasswordGenerator.with_lowercase_chars,
    PasswordGenerator.with_uppercase_chars, PasswordGenerator.with_symbols,
    PasswordGenerator.with_numbers, PasswordGenerator.with_length,
    PasswordContents.empty, buildDictionary] using hm

/-- Witness for C6: all classes, length 1, the constant-zero random
source, producing the letter a. -/
theorem generate_all_classes_union_check :
    (∀ ch ∈ ['a'], ch ∈ LOWERCASE_DATA ++ UPPERCASE_DATA ++ SYMBOLS ++ NUMBERS) ∧
    (LOWERCASE_DATA ++ UPPERCASE_DATA ++ SYMBOLS ++ NUMBERS).dedup.length = 94 :=
  generate_all_classes_union 1 (fun _ => 0) ['a'] rfl

/-- Counterexample to C7 as stated: for the numbers-only selection the
code's pool differs from the spec-worded pool whose Numbers alphabet is
0 to 9 in ascending order. -/
theorem pool_numbers_order_cex :
    buildDictionary (PasswordGenerator.new.with_numbers).contents ≠
      specPool (PasswordGenerator.new.with_numbers).contents := by
  decide

/-- Claim C7 (amended): the pool is the concatenation, in the fixed order
Lowercase, Uppercase, Symbols, Numbers, of the enabled classes' literal
alphabets, where the Numbers alphabet is the digits 1 through 9 followed
by 0; disabled classes contribute nothing. -/
theorem buildDictionary_eq_amendedPool (c : PasswordContents) :
    buildDictionary c = amendedPool c := by
  obtain ⟨a, b, s, n⟩ := c
  cases a <;> cases b <;> cases s <;> cases n <;> decide

/-- Claim C8: each configuration operation is a total, deterministic state
transformation: on equal configurations with equal arguments it yields
equal configurations (the Lean embedding makes them pure functions with no
random source and no effects, mirroring the Rust builder methods). -/
theorem config_ops_deterministic (g g' : PasswordGenerator) (n : Nat)
    (h : g = g') :
    g.with_lowercase_chars = g'.with_lowercase_chars ∧
    g.with_uppercase_chars = g'.with_uppercase_chars ∧
    g.with_symbols = g'.with_symbols ∧
    g.with_numbers = g'.with_numbers ∧
    g.with_length n = g'.with_length n := by
  subst h
  exact ⟨rfl, rfl, rfl, rfl, rfl⟩

/-- Witness for C8 at the default generator. -/
theorem config_ops_deterministic_check :
    PasswordGenerator.new.with_lowercase_chars = PasswordGenerator.new.with_lowercase_chars ∧
    PasswordGenerator.new.with_uppercase_chars = PasswordGenerator.new.with_uppercase_chars ∧
    PasswordGenerator.new.with_symbols = PasswordGenerator.new.with_symbols ∧
    PasswordGenerator.new.with_numbers = PasswordGenerator.new.with_numbers ∧
    PasswordGenerator.new.with_length 5 = PasswordGenerator.new.with_length 5 :=
  config_ops_deterministic PasswordGenerator.new PasswordGenerator.new 5 rfl

/-- Claim C9: once both validation checks pass, the pool is nonempty, so
`choose` always returns a value (the per-character `unwrap` cannot panic)
and `generate` returns a password (the outer `none` that models a panic,
including the length `unwrap`, is never produced). -/
theorem generate_unwraps_never_panic (g : PasswordGenerator) (L : Nat)
    (pick : Nat → Nat) (hlen : g.length = some L)
    (hc : g.contents.isEmpty = false) :
    buildDictionary g.contents ≠ [] ∧
    (∀ r, ∃ ch, choose (buildDictionary g.contents) r = some ch) ∧
    ∃ pw, PasswordGenerator.generate g pick = some (Except.ok pw) := by
  have hne := buildDictionary_ne_nil g.contents hc
  refine ⟨hne, fun r => choose_isSome _ hne r, ?_⟩
  obtain ⟨c, l⟩ := g
  cases l with
  | none => simp at hlen
  | some len =>
    obtain ⟨s, hs, _⟩ := generate_ok c len pick hc
    exact ⟨s, hs⟩

/-- Witness for C9: lowercase enabled, default length 8. -/
theorem generate_unwraps_never_panic_check :
    PasswordGenerator.length (PasswordGenerator.new.with_lowercase_chars) = some 8 ∧
    PasswordContents.isEmpty (PasswordGenerator.new.with_lowercase_chars).contents = false ∧
    (buildDictionary (PasswordGenerator.new.with_lowercase_chars).contents ≠ [] ∧
    (∀ r, ∃ ch, choose (buildDictionary (PasswordGenerator.new.with_lowercase_chars).contents) r = some ch) ∧
    ∃ pw, PasswordGenerator.generate PasswordGenerator.new.with_lowercase_chars
      (fun i => i) = some (Except.ok pw)) :=
  ⟨rfl, rfl,
    generate_unwraps_never_panic PasswordGenerator.new.with_lowercase_chars 8
      (fun i => i) rfl rfl⟩

/-- Claim C10: each class-enable operation sets only its own flag, leaving
the other three flags and the length unchanged, is idempotent, and
commutes with the other enables; the length setter leaves the class
selection unchanged. -/
theorem config_ops_frame (g : PasswordGenerator) (k : Nat) :
    (g.with_lowercase_chars.contents.lowercase = true ∧
     g.with_lowercase_chars.contents.uppercase = g.contents.uppercase ∧
     g.with_lowercase_chars.contents.symbols = g.contents.symbols ∧
     g.with_lowercase_chars.contents.numbers = g.contents.numbers ∧
     g.with_lowercase_chars.length = g.length) ∧
    (g.with_uppercase_chars.contents.uppercase = true ∧
     g.with_uppercase_chars.contents.lowercase = g.contents.lowercase ∧
     g.with_uppercase_chars.contents.symbols = g.contents.symbols ∧
     g.with_uppercase_chars.contents.numbers = g.contents.numbers ∧
     g.with_uppercase_chars.length = g.length) ∧
    (g.with_symbols.contents.symbols = true ∧
     g.with_symbols.contents.lowercase = g.contents.lowercase ∧
     g.with_symbols.contents.uppercase = g.contents.uppercase ∧
     g.with_symbols.contents.numbers = g.contents.numbers ∧
     g.with_symbols.length = g.length) ∧
    (g.with_numbers.contents.numbers = true ∧
     g.with_numbers.contents.lowercase = g.contents.lowercase ∧
     g.with_numbers.contents.uppercase = g.contents.uppercase ∧
     g.with_numbers.contents.symbols = g.contents.symbols ∧
     g.with_numbers.length = g.length) ∧
    (g.with_length k).contents = g.contents ∧
    (g.with_lowercase_chars.with_lowercase_chars = g.with_lowercase_chars ∧
     g.with_uppercase_chars.with_uppercase_chars = g.with_uppercase_chars ∧
     g.with_symbols.with_symbols = g.with_symbols ∧
     g.with_numbers.with_numbers = g.with_numbers) ∧
    (g.with_lowercase_chars.with_uppercase_chars = g.with_uppercase_chars.with_lowercase_chars ∧
     g.with_lowercase_chars.with_symbols = g.with_symbols.with_lowercase_chars ∧
     g.with_lowercase_chars.with_numbers = g.with_numbers.with_lowercase_chars ∧
     g.with_uppercase_chars.with_symbols = g.with_symbols.with_uppercase_chars ∧
     g.with_uppercase_chars.with_numbers = g.with_numbers.with_uppercase_chars ∧
     g.with_symbols.with_numbers = g.with_numbers.with_symbols) :=
  ⟨⟨rfl, rfl, rfl, rfl, rfl⟩, ⟨rfl, rfl, rfl, rfl, rfl⟩,
   ⟨rfl, rfl, rfl, rfl, rfl⟩, ⟨rfl, rfl, rfl, rfl, rfl⟩, rfl,
   ⟨rfl, rfl, rfl, rfl⟩, ⟨rfl, rfl, rfl, rfl, rfl, rfl⟩⟩

end Passkeep
